import Mathlib

/-!
Shallow embedding of the StatusWise group/invitation/authorization subsystem
(`backend/group_service.py`, `backend/authorization.py`, `backend/models.py`,
`backend/schemas.py`).

The database is modelled as lists of rows; each SQLAlchemy query
(`.filter(...).first()`) becomes `List.find?`, row mutation plus `commit`
becomes replacing the row (keyed by primary key) in the list, and
`HTTPException` becomes an `Err` value carrying the HTTP status code and
detail string.  Timestamps are integers (seconds); `datetime.now` is an
explicit `now` parameter and `secrets.token_urlsafe` an explicit `tok`
parameter, so every operation is a pure function from inputs and the
pre-state to a result and the post-state.  Operations that mutate state and
then raise (the expiry path of `respond_to_invitation`) return the mutated
state together with the error, matching the source's commit-then-raise order.
-/

namespace StatusWise

/-- Roles of `models.GroupRole`. -/
inductive GroupRole where
  | OWNER
  | ADMIN
  | MEMBER
deriving DecidableEq, Repr

/-- Statuses of `models.InvitationStatus`. -/
inductive InvitationStatus where
  | PENDING
  | ACCEPTED
  | DECLINED
  | EXPIRED
deriving DecidableEq, Repr

/-- `models.User` (the fields this subsystem reads). -/
structure User where
  id : Nat
  email : String
deriving DecidableEq, Repr

/-- `models.Group`. -/
structure Group where
  id : Nat
  name : String
  description : Option String
  owner_id : Nat
  is_active : Bool
deriving DecidableEq, Repr

/-- `models.GroupMember`; `models.py` additionally declares
`UniqueConstraint("group_id", "user_id", name="_group_user_uc")` on this
table (see `groupUserUnique` below). -/
structure GroupMember where
  id : Nat
  group_id : Nat
  user_id : Nat
  role : GroupRole
  is_active : Bool
  updated_at : Int
deriving DecidableEq, Repr

/-- `models.GroupInvitation`. -/
structure GroupInvitation where
  id : Nat
  group_id : Nat
  invited_user_id : Option Nat
  invited_email : Option String
  invited_by_id : Nat
  role : GroupRole
  status : InvitationStatus
  message : Option String
  invitation_token : Option String
  expires_at : Option Int
  responded_at : Option Int
deriving DecidableEq, Repr

/-- `models.Project` (fields read by the authorization gate). -/
structure Project where
  id : Nat
  owner_id : Nat
deriving DecidableEq, Repr

/-- `models.Incident` (fields read by the authorization gate). -/
structure Incident where
  id : Nat
  project_id : Nat
deriving DecidableEq, Repr

/-- The relational state visible to this subsystem. -/
structure DB where
  users : List User
  groups : List Group
  members : List GroupMember
  invitations : List GroupInvitation
  projects : List Project
  incidents : List Incident
deriving DecidableEq, Repr

/-- `fastapi.HTTPException`: HTTP status code plus detail message. -/
structure Err where
  status_code : Nat
  detail : String
deriving DecidableEq, Repr

instance {ε α : Type} [DecidableEq ε] [DecidableEq α] : DecidableEq (Except ε α)
  | .error a, .error b =>
    if h : a = b then .isTrue (by rw [h])
    else .isFalse (by intro he; cases he; exact h rfl)
  | .error _, .ok _ => .isFalse (by intro h; cases h)
  | .ok _, .error _ => .isFalse (by intro h; cases h)
  | .ok a, .ok b =>
    if h : a = b then .isTrue (by rw [h])
    else .isFalse (by intro he; cases he; exact h rfl)

/-- The declared uniqueness constraint `_group_user_uc` of
`models.GroupMember`: at most one row per `(group_id, user_id)` pair,
regardless of the `is_active` flag. -/
def groupUserUnique (ms : List GroupMember) : Prop :=
  ∀ m1 ∈ ms, ∀ m2 ∈ ms,
    m1.group_id = m2.group_id → m1.user_id = m2.user_id → m1 = m2

instance (ms : List GroupMember) : Decidable (groupUserUnique ms) := by
  unfold groupUserUnique; infer_instance

/-- Autoincrement primary keys: one more than the largest id in use. -/
def freshId (ids : List Nat) : Nat := ids.foldr max 0 + 1

def freshGroupId (db : DB) : Nat := freshId (db.groups.map Group.id)

def freshMemberId (db : DB) : Nat := freshId (db.members.map GroupMember.id)

def freshInvitationId (db : DB) : Nat := freshId (db.invitations.map GroupInvitation.id)

/-- `auth.get_user_by_email`. -/
def getUserByEmail (email : String) (db : DB) : Option User :=
  db.users.find? (fun u => u.email == email)

/-- `GroupService._get_user_group_membership`: the user's **active**
membership in the group, if any. -/
def getUserGroupMembership (user_id group_id : Nat) (db : DB) : Option GroupMember :=
  db.members.find? (fun m =>
    m.user_id == user_id && m.group_id == group_id && m.is_active)

/-- `schemas.GroupCreate`. -/
structure GroupCreate where
  name : String
  description : Option String
deriving DecidableEq, Repr

/-- `GroupService.create_group`. -/
def create_group (group_data : GroupCreate) (owner : User) (now : Int) (db : DB) :
    Except Err Group × DB :=
  match db.groups.find? (fun g =>
      g.owner_id == owner.id && g.name == group_data.name && g.is_active) with
  | some _ => (.error ⟨400, "A group with this name already exists"⟩, db)
  | none =>
    let gid := freshGroupId db
    let db_group : Group :=
      { id := gid, name := group_data.name, description := group_data.description
        owner_id := owner.id, is_active := true }
    let owner_membership : GroupMember :=
      { id := freshMemberId db, group_id := gid, user_id := owner.id
        role := GroupRole.OWNER, is_active := true, updated_at := now }
    (.ok db_group,
      { db with
          groups := db.groups ++ [db_group]
          members := db.members ++ [owner_membership] })

/-- `AuthorizationService.check_project_access`. -/
def check_project_access (user_id project_id : Nat) (action : String) (db : DB) : Bool :=
  match db.projects.find? (fun p => p.id == project_id) with
  | none => false
  | some project =>
    if project.owner_id != user_id then false
    else true

/-- `AuthorizationService.check_incident_access`. -/
def check_incident_access (user_id incident_id : Nat) (action : String) (db : DB) : Bool :=
  match db.incidents.find? (fun i => i.id == incident_id) with
  | none => false
  | some incident =>
    match db.projects.find? (fun p => p.id == incident.project_id) with
    | none => false
    | some project =>
      if project.owner_id != user_id then false
      else true

/-- `schemas.GroupInvitationCreate`.  (Its validator requires exactly one of
`invited_email` / `invited_user_id`; theorems take states satisfying this as
inputs but the embedding, like the service code, is total.) -/
structure GroupInvitationCreate where
  group_id : Nat
  invited_email : Option String
  invited_user_id : Option Nat
  role : GroupRole
  message : Option String
deriving DecidableEq, Repr

/-- `schemas.GroupInvitationUpdate`. -/
structure GroupInvitationUpdate where
  status : InvitationStatus
  message : Option String
deriving DecidableEq, Repr

/-- `schemas.GroupMemberUpdate`. -/
structure GroupMemberUpdate where
  role : Option GroupRole
  is_active : Option Bool
deriving DecidableEq, Repr

/-- Target-resolution block of `GroupService.invite_user`
(`if invitation_data.invited_user_id: ... elif invitation_data.invited_email:
...`).  Python truthiness: a user id of `0` and an empty email string are
falsy.  Returns `(invited_user, invited_email, invited_user_id)` as they
stand after the block (the source mutates `invitation_data.invited_user_id`
in the email branch when the email resolves to a known user). -/
def resolveByEmail (idata : GroupInvitationCreate) (db : DB) :
    Except Err (Option User × Option String × Option Nat) :=
  match idata.invited_email with
  | some e =>
    if e != "" then
      match getUserByEmail e db with
      | some u => .ok (some u, some e, some u.id)
      | none => .ok (none, some e, idata.invited_user_id)
    else .ok (none, some e, idata.invited_user_id)
  | none => .ok (none, none, idata.invited_user_id)

def resolveInvitee (idata : GroupInvitationCreate) (db : DB) :
    Except Err (Option User × Option String × Option Nat) :=
  match idata.invited_user_id with
  | some uid =>
    if uid != 0 then
      match db.users.find? (fun u => u.id == uid) with
      | none => .error ⟨404, "User not found"⟩
      | some u => .ok (some u, some u.email, some uid)
    else resolveByEmail idata db
  | none => resolveByEmail idata db

/-- `GroupService.invite_user`.  `tok` stands for the entropy of
`secrets.token_urlsafe(32)`.  The duplicate-pending query's comparison
`GroupInvitation.invited_user_id == invitation_data.invited_user_id` is
rendered by SQLAlchemy as `invited_user_id IS NULL` when the right-hand side
is `None`, which is exactly `Option` equality (both `none` ⇒ match). -/
def invite_user (idata : GroupInvitationCreate) (inviter : User) (now : Int)
    (tok : String) (db : DB) : Except Err GroupInvitation × DB :=
  match getUserGroupMembership inviter.id idata.group_id db with
  | none => (.error ⟨403, "Insufficient permissions to send invitations"⟩, db)
  | some membership =>
    if !(membership.role == GroupRole.OWNER || membership.role == GroupRole.ADMIN) then
      (.error ⟨403, "Insufficient permissions to send invitations"⟩, db)
    else
      match db.groups.find? (fun g => g.id == idata.group_id) with
      | none => (.error ⟨404, "Group not found"⟩, db)
      | some group =>
        if !group.is_active then (.error ⟨404, "Group not found"⟩, db)
        else
          match resolveInvitee idata db with
          | .error e => (.error e, db)
          | .ok (invited_user, invited_email, invited_user_id) =>
            let already_member : Bool :=
              match invited_user with
              | some u =>
                (db.members.find? (fun m =>
                  m.group_id == idata.group_id && m.user_id == u.id && m.is_active)).isSome
              | none => false
            if already_member then
              (.error ⟨400, "User is already a member of this group"⟩, db)
            else
              let existing_invitation := db.invitations.find? (fun i =>
                i.group_id == idata.group_id &&
                (i.invited_email == invited_email ||
                 i.invited_user_id == invited_user_id) &&
                i.status == InvitationStatus.PENDING)
              if existing_invitation.isSome then
                (.error ⟨400, "Invitation already pending for this user"⟩, db)
              else
                let invitation : GroupInvitation :=
                  { id := freshInvitationId db
                    group_id := idata.group_id
                    invited_user_id := invited_user_id
                    invited_email := invited_email
                    invited_by_id := inviter.id
                    role := idata.role
                    status := InvitationStatus.PENDING
                    message := idata.message
                    invitation_token := if invited_user.isNone then some tok else none
                    expires_at := some (now + 7 * 86400)
                    responded_at := none }
                (.ok invitation,
                  { db with invitations := db.invitations ++ [invitation] })

/-- The lookup of `GroupService.respond_to_invitation`: the invitation with
this id, addressed to this user (by id or email), still PENDING. -/
def findPendingInvitation (invitation_id : Nat) (user : User) (db : DB) :
    Option GroupInvitation :=
  db.invitations.find? (fun i =>
    i.id == invitation_id &&
    (i.invited_user_id == some user.id || i.invited_email == some user.email) &&
    i.status == InvitationStatus.PENDING)

/-- Expiry test of `respond_to_invitation`
(`if expires_at and expires_at < current_time`); the timezone normalization
of the source is absorbed by modelling instants as integers. -/
def invitationExpired (inv : GroupInvitation) (now : Int) : Bool :=
  match inv.expires_at with
  | some e => e < now
  | none => false

/-- `GroupService.respond_to_invitation`. -/
def respond_to_invitation (invitation_id : Nat) (response : GroupInvitationUpdate)
    (user : User) (now : Int) (db : DB) : Except Err GroupInvitation × DB :=
  match findPendingInvitation invitation_id user db with
  | none => (.error ⟨404, "Invitation not found or already responded"⟩, db)
  | some invitation =>
    if invitationExpired invitation now then
      (.error ⟨400, "Invitation has expired"⟩,
        { db with invitations := db.invitations.map (fun i =>
            if i.id == invitation.id
            then { i with status := InvitationStatus.EXPIRED } else i) })
    else
      let new_message : Option String :=
        match response.message with
        | some m => if m != "" then some m else invitation.message
        | none => invitation.message
      let invitation' : GroupInvitation :=
        { invitation with
            status := response.status
            responded_at := some now
            message := new_message }
      let need_membership : Bool :=
        response.status == InvitationStatus.ACCEPTED &&
        (db.members.find? (fun m =>
          m.group_id == invitation.group_id && m.user_id == user.id &&
          m.is_active)).isNone
      let new_members : List GroupMember :=
        if need_membership then
          db.members ++ [{ id := freshMemberId db
                           group_id := invitation.group_id
                           user_id := user.id
                           role := invitation.role
                           is_active := true
                           updated_at := now }]
        else db.members
      (.ok invitation',
        { db with
            invitations := db.invitations.map (fun i =>
              if i.id == invitation.id then invitation' else i)
            members := new_members })

/-- `GroupService.update_member_role`. -/
def update_member_role (group_id member_id : Nat) (role_update : GroupMemberUpdate)
    (user : User) (now : Int) (db : DB) : Except Err GroupMember × DB :=
  match getUserGroupMembership user.id group_id db with
  | none => (.error ⟨403, "Insufficient permissions to update member"⟩, db)
  | some user_membership =>
    if !(user_membership.role == GroupRole.OWNER ||
         user_membership.role == GroupRole.ADMIN) then
      (.error ⟨403, "Insufficient permissions to update member"⟩, db)
    else
      match db.members.find? (fun m =>
          m.id == member_id && m.group_id == group_id) with
      | none => (.error ⟨404, "Member not found"⟩, db)
      | some member =>
        if member.user_id == user.id && member.role == GroupRole.OWNER &&
           (match role_update.role with
            | some r => r != GroupRole.OWNER
            | none => false) then
          (.error ⟨400, "Owner cannot demote themselves. Transfer ownership first."⟩, db)
        else if (match role_update.role with
                 | some r =>
                   (r == GroupRole.ADMIN || r == GroupRole.OWNER) &&
                   user_membership.role != GroupRole.OWNER
                 | none => false) then
          (.error ⟨403, "Only owners can promote members to admin or owner"⟩, db)
        else
          let member' : GroupMember :=
            { member with
                role := role_update.role.getD member.role
                is_active := role_update.is_active.getD member.is_active
                updated_at := now }
          (.ok member',
            { db with members := db.members.map (fun m =>
                if m.id == member.id then member' else m) })

/-- `GroupService.remove_member`. -/
def remove_member (group_id member_id : Nat) (user : User) (now : Int) (db : DB) :
    Except Err Bool × DB :=
  match getUserGroupMembership user.id group_id db with
  | none => (.error ⟨403, "Insufficient permissions to remove member"⟩, db)
  | some user_membership =>
    if !(user_membership.role == GroupRole.OWNER ||
         user_membership.role == GroupRole.ADMIN) then
      (.error ⟨403, "Insufficient permissions to remove member"⟩, db)
    else
      match db.members.find? (fun m =>
          m.id == member_id && m.group_id == group_id) with
      | none => (.error ⟨404, "Member not found"⟩, db)
      | some member =>
        if member.user_id == user.id && member.role == GroupRole.OWNER then
          (.error ⟨400, "Owner cannot remove themselves. Transfer ownership first."⟩, db)
        else
          let member' : GroupMember :=
            { member with is_active := false, updated_at := now }
          (.ok true,
            { db with members := db.members.map (fun m =>
                if m.id == member.id then member' else m) })

/-- Modelled from the spec: section 7 maps the `PermissionDenied` failure
kind to HTTP status 403 (the status the service raises for insufficient
role/ownership).  Used to compare the spec's error taxonomy with the status
codes the source actually raises. -/
def specPermissionDeniedStatus : Nat := 403

/-- Concrete scenario states used by the closed theorems below. -/
def alice : User := ⟨1, "alice@x.com"⟩

def bob : User := ⟨2, "bob@x.com"⟩

/-- Group 1 owned by alice; alice active OWNER member; bob active MEMBER. -/
def c1db0 : DB :=
  { users := [alice, bob]
    groups := [⟨1, "Ops", none, 1, true⟩]
    members := [⟨1, 1, 1, GroupRole.OWNER, true, 0⟩,
                ⟨2, 1, 2, GroupRole.MEMBER, true, 0⟩]
    invitations := []
    projects := []
    incidents := [] }

/-- Group 1 owned by alice, with one PENDING invitation for the unknown
email address `dave@x.com` (no such user exists). -/
def c3db : DB :=
  { users := [alice]
    groups := [⟨1, "Ops", none, 1, true⟩]
    members := [⟨1, 1, 1, GroupRole.OWNER, true, 0⟩]
    invitations := [⟨1, 1, none, some "dave@x.com", 1, GroupRole.MEMBER,
                    InvitationStatus.PENDING, none, some "tok0", some 604800, none⟩]
    projects := []
    incidents := [] }

/-- Group 1 owned by alice, alice the sole (OWNER) member. -/
def c2db : DB :=
  { users := [alice]
    groups := [⟨1, "Ops", none, 1, true⟩]
    members := [⟨1, 1, 1, GroupRole.OWNER, true, 0⟩]
    invitations := []
    projects := []
    incidents := [] }

def carol : User := ⟨3, "carol@x.com"⟩

/-- Group 1 owned by alice with a PENDING invitation to bob that expired at
instant 10. -/
def c4db : DB :=
  { users := [alice, bob]
    groups := [⟨1, "Ops", none, 1, true⟩]
    members := [⟨1, 1, 1, GroupRole.OWNER, true, 0⟩]
    invitations := [⟨1, 1, some 2, some "bob@x.com", 1, GroupRole.MEMBER,
                    InvitationStatus.PENDING, none, none, some 10, none⟩]
    projects := []
    incidents := [] }

/-- Group 1 owned by alice; the one invitation to bob is already DECLINED
(terminal). -/
def c6db : DB :=
  { users := [alice, bob]
    groups := [⟨1, "Ops", none, 1, true⟩]
    members := [⟨1, 1, 1, GroupRole.OWNER, true, 0⟩]
    invitations := [⟨1, 1, some 2, some "bob@x.com", 1, GroupRole.MEMBER,
                    InvitationStatus.DECLINED, none, none, some 604800, some 3⟩]
    projects := []
    incidents := [] }

/-- Group 1: alice OWNER, bob ADMIN, carol MEMBER, all active. -/
def c7db : DB :=
  { users := [alice, bob, carol]
    groups := [⟨1, "Ops", none, 1, true⟩]
    members := [⟨1, 1, 1, GroupRole.OWNER, true, 0⟩,
                ⟨2, 1, 2, GroupRole.ADMIN, true, 0⟩,
                ⟨3, 1, 3, GroupRole.MEMBER, true, 0⟩]
    invitations := []
    projects := []
    incidents := [] }

/-- Two projects (owned by users 1 and 2) and an incident in each. -/
def c8db : DB :=
  { users := [alice, bob]
    groups := []
    members := []
    invitations := []
    projects := [⟨1, 1⟩, ⟨2, 2⟩]
    incidents := [⟨1, 1⟩, ⟨2, 2⟩] }

/-- Alice already owns an *inactive* group named "Ops"; no members. -/
def c5wdb : DB :=
  { users := [alice]
    groups := [⟨1, "Ops", none, 1, false⟩]
    members := []
    invitations := []
    projects := []
    incidents := [] }

/-- Group 1 owned by alice with a PENDING invitation to bob expiring at
instant 1000 (not yet expired at the times used below). -/
def c10db : DB :=
  { users := [alice, bob]
    groups := [⟨1, "Ops", none, 1, true⟩]
    members := [⟨1, 1, 1, GroupRole.OWNER, true, 0⟩]
    invitations := [⟨1, 1, some 2, some "bob@x.com", 1, GroupRole.MEMBER,
                    InvitationStatus.PENDING, none, none, some 1000, none⟩]
    projects := []
    incidents := [] }

/-- Every id in the list is below the fresh (autoincrement) id. -/
theorem le_foldr_max {n : Nat} {ids : List Nat} (h : n ∈ ids) :
    n ≤ ids.foldr max 0 := by
  induction ids with
  | nil => cases h
  | cons i is ih =>
    rw [List.foldr_cons]
    rcases List.mem_cons.mp h with h1 | h2
    · subst h1; exact Nat.le_max_left _ _
    · exact Nat.le_trans (ih h2) (Nat.le_max_right _ _)

theorem mem_lt_freshId {n : Nat} {ids : List Nat} (h : n ∈ ids) : n < freshId ids :=
  Nat.lt_succ_of_le (le_foldr_max h)

/-- Claim C1: after `RemoveMember` soft-deletes bob's membership, re-inviting
bob and accepting within the expiry window is claimed to succeed while
preserving at most one `GroupMember` row per `(group_id, user_id)` pair.
In the code the accept path inserts a *new* row instead of reactivating the
soft-deleted one: starting from a state satisfying the declared
`_group_user_uc` uniqueness constraint, the remove → invite → accept
sequence produces a second row for the pair `(1, 2)`, so the resulting
state violates the constraint declared in `models.GroupMember` (on a real
store the final commit raises `IntegrityError` instead of succeeding). -/
theorem c1_rejoin_after_removal_breaks_group_user_uc :
    groupUserUnique c1db0.members
    ∧ remove_member 1 2 alice 1 c1db0 =
        (.ok true, { c1db0 with
          members := [⟨1, 1, 1, GroupRole.OWNER, true, 0⟩,
                      ⟨2, 1, 2, GroupRole.MEMBER, false, 1⟩] })
    ∧ (invite_user ⟨1, none, some 2, GroupRole.MEMBER, none⟩ alice 2 "tok"
         (remove_member 1 2 alice 1 c1db0).2).1 =
        .ok ⟨1, 1, some 2, some "bob@x.com", 1, GroupRole.MEMBER,
             InvitationStatus.PENDING, none, none, some 604802, none⟩
    ∧ (respond_to_invitation 1 ⟨InvitationStatus.ACCEPTED, none⟩ bob 3
         (invite_user ⟨1, none, some 2, GroupRole.MEMBER, none⟩ alice 2 "tok"
           (remove_member 1 2 alice 1 c1db0).2).2).1 =
        .ok ⟨1, 1, some 2, some "bob@x.com", 1, GroupRole.MEMBER,
             InvitationStatus.ACCEPTED, none, none, some 604802, some 3⟩
    ∧ ((respond_to_invitation 1 ⟨InvitationStatus.ACCEPTED, none⟩ bob 3
         (invite_user ⟨1, none, some 2, GroupRole.MEMBER, none⟩ alice 2 "tok"
           (remove_member 1 2 alice 1 c1db0).2).2).2).members =
        [⟨1, 1, 1, GroupRole.OWNER, true, 0⟩,
         ⟨2, 1, 2, GroupRole.MEMBER, false, 1⟩,
         ⟨3, 1, 2, GroupRole.MEMBER, true, 3⟩]
    ∧ ¬ groupUserUnique
        ((respond_to_invitation 1 ⟨InvitationStatus.ACCEPTED, none⟩ bob 3
           (invite_user ⟨1, none, some 2, GroupRole.MEMBER, none⟩ alice 2 "tok"
             (remove_member 1 2 alice 1 c1db0).2).2).2).members := by
  decide

/-- Claim C3: the claim says a pending invitation for a *different* target
in the same group does not block a new `Invite`.  In the code the
duplicate-pending query compares `invited_user_id` with the new target's
resolved user id via SQLAlchemy `==`, which becomes `IS NULL` when the new
target resolves to no known user; a pending invitation for any other
unknown email address (also `NULL` user id) therefore matches, and inviting
`carol@x.com` while `dave@x.com` is pending fails with the duplicate-pending
conflict even though no user has either address. -/
theorem c3_pending_unknown_email_blocks_different_target :
    (∀ u ∈ c3db.users, u.email ≠ "carol@x.com" ∧ u.email ≠ "dave@x.com")
    ∧ ("carol@x.com" : String) ≠ "dave@x.com"
    ∧ invite_user ⟨1, some "carol@x.com", none, GroupRole.MEMBER, none⟩ alice 0 "t1" c3db
        = (.error ⟨400, "Invitation already pending for this user"⟩, c3db) := by
  decide

/-- Claim C2 (counterexample): the claim says both owner-self-guards fail
with `PermissionDenied`, which the spec's error taxonomy maps to HTTP 403;
the code raises HTTP 400 for both guards. -/
theorem c2_self_guard_status_counterexample :
    (update_member_role 1 1 ⟨some GroupRole.ADMIN, none⟩ alice 5 c2db).1
      = .error ⟨400, "Owner cannot demote themselves. Transfer ownership first."⟩
    ∧ (remove_member 1 1 alice 5 c2db).1
      = .error ⟨400, "Owner cannot remove themselves. Transfer ownership first."⟩
    ∧ (400 : Nat) ≠ specPermissionDeniedStatus := by
  decide

/-- Claim C2 (amended): for an actor holding an active OWNER membership,
`update_member_role` on the actor's own membership rejects any requested
role change away from OWNER, and `remove_member` rejects removing the
actor's own OWNER membership; both fail with an HTTP 400 error (not 403)
and leave the state — in particular the membership row — unchanged. -/
theorem c2_owner_self_guard_bad_request (group_id member_id : Nat)
    (role_update : GroupMemberUpdate) (user : User) (now : Int) (db : DB)
    (um mem : GroupMember) (r : GroupRole)
    (hum : getUserGroupMembership user.id group_id db = some um)
    (humr : um.role = GroupRole.OWNER)
    (hmem : db.members.find? (fun m => m.id == member_id && m.group_id == group_id)
              = some mem)
    (hmu : mem.user_id = user.id) (hmr : mem.role = GroupRole.OWNER)
    (hr : role_update.role = some r) (hrne : r ≠ GroupRole.OWNER) :
    update_member_role group_id member_id role_update user now db =
      (.error ⟨400, "Owner cannot demote themselves. Transfer ownership first."⟩, db)
    ∧ remove_member group_id member_id user now db =
      (.error ⟨400, "Owner cannot remove themselves. Transfer ownership first."⟩, db) := by
  constructor
  · simp [update_member_role, hum, humr, hmem, hmu, hmr, hr, hrne]
  · simp [remove_member, hum, humr, hmem, hmu, hmr]

/-- Witness for `c2_owner_self_guard_bad_request` at the concrete state
`c2db` (alice, sole OWNER of group 1, targeting her own membership row with
a demotion to ADMIN). -/
theorem c2_owner_self_guard_bad_request_witness :
    getUserGroupMembership 1 1 c2db = some ⟨1, 1, 1, GroupRole.OWNER, true, 0⟩
    ∧ (⟨1, 1, 1, GroupRole.OWNER, true, 0⟩ : GroupMember).role = GroupRole.OWNER
    ∧ c2db.members.find? (fun m => m.id == 1 && m.group_id == 1)
        = some ⟨1, 1, 1, GroupRole.OWNER, true, 0⟩
    ∧ (GroupRole.ADMIN ≠ GroupRole.OWNER)
    ∧ (update_member_role 1 1 ⟨some GroupRole.ADMIN, none⟩ alice 5 c2db =
        (.error ⟨400, "Owner cannot demote themselves. Transfer ownership first."⟩, c2db)
      ∧ remove_member 1 1 alice 5 c2db =
        (.error ⟨400, "Owner cannot remove themselves. Transfer ownership first."⟩, c2db)) :=
  ⟨by decide, by decide, by decide, by decide,
   c2_owner_self_guard_bad_request 1 1 ⟨some GroupRole.ADMIN, none⟩ alice 5 c2db
     ⟨1, 1, 1, GroupRole.OWNER, true, 0⟩ ⟨1, 1, 1, GroupRole.OWNER, true, 0⟩
     GroupRole.ADMIN (by decide) (by decide) (by decide) (by decide) (by decide)
     (by decide) (by decide)⟩

/-- Claim C4: responding to a PENDING invitation whose `expires_at` lies
before the current time marks the invitation EXPIRED in the store and fails
with the 400 "Invitation has expired" error — the mutation happens even
though the call fails — and any further `Respond` call (any responder,
any requested status, any later time) fails NotFound and leaves the state,
hence the terminal EXPIRED status, unchanged. -/
theorem c4_respond_expired_marks_expired (invitation_id : Nat)
    (response : GroupInvitationUpdate) (user : User) (now e : Int) (db : DB)
    (inv : GroupInvitation)
    (hfind : findPendingInvitation invitation_id user db = some inv)
    (hexp : inv.expires_at = some e) (hlt : e < now) :
    respond_to_invitation invitation_id response user now db =
      (.error ⟨400, "Invitation has expired"⟩,
       { db with invitations := db.invitations.map (fun i =>
           if i.id == inv.id then { i with status := InvitationStatus.EXPIRED } else i) })
    ∧ (∀ j ∈ (db.invitations.map (fun i =>
          if i.id == inv.id then { i with status := InvitationStatus.EXPIRED } else i)),
        j.id = inv.id → j.status = InvitationStatus.EXPIRED)
    ∧ (∀ (u2 : User) (response2 : GroupInvitationUpdate) (now2 : Int),
        respond_to_invitation invitation_id response2 u2 now2
          ({ db with invitations := db.invitations.map (fun i =>
              if i.id == inv.id then { i with status := InvitationStatus.EXPIRED } else i) }) =
        (.error ⟨404, "Invitation not found or already responded"⟩,
         { db with invitations := db.invitations.map (fun i =>
             if i.id == inv.id then { i with status := InvitationStatus.EXPIRED } else i) })) := by
  have hid : (inv.id == invitation_id) = true := by
    have hp := List.find?_some hfind
    simp only [Bool.and_eq_true] at hp
    exact hp.1.1
  refine ⟨?_, ?_, ?_⟩
  · unfold respond_to_invitation
    rw [hfind]
    simp [invitationExpired, hexp, hlt]
  · intro j hj hjid
    rcases List.mem_map.mp hj with ⟨i, hi, rfl⟩
    by_cases hii : (i.id == inv.id) = true
    · simp [hii]
    · rw [if_neg hii] at hjid ⊢
      exact absurd (by simp [hjid]) hii
  · intro u2 response2 now2
    have hnone : findPendingInvitation invitation_id u2
        ({ db with invitations := db.invitations.map (fun i =>
            if i.id == inv.id then { i with status := InvitationStatus.EXPIRED } else i) })
        = none := by
      unfold findPendingInvitation
      rw [List.find?_eq_none]
      intro x hx
      rcases List.mem_map.mp hx with ⟨i, hi, rfl⟩
      by_cases hii : (i.id == inv.id) = true
      · simp [hii]
      · rw [if_neg hii]
        have : (i.id == invitation_id) = false := by
          rw [beq_eq_false_iff_ne]
          intro hcon
          exact hii (beq_iff_eq.mpr (by rw [hcon, beq_iff_eq.mp hid]))
        simp [this]
    unfold respond_to_invitation
    rw [hnone]

/-- Witness for `c4_respond_expired_marks_expired`: bob answers invitation 1
of `c4db` (expired at instant 10) at instant 20. -/
theorem c4_respond_expired_marks_expired_witness :
    findPendingInvitation 1 bob c4db =
      some ⟨1, 1, some 2, some "bob@x.com", 1, GroupRole.MEMBER,
            InvitationStatus.PENDING, none, none, some 10, none⟩
    ∧ ((10 : Int) < 20)
    ∧ (respond_to_invitation 1 ⟨InvitationStatus.ACCEPTED, none⟩ bob 20 c4db =
        (.error ⟨400, "Invitation has expired"⟩,
         { c4db with invitations := c4db.invitations.map (fun i =>
             if i.id == 1 then { i with status := InvitationStatus.EXPIRED } else i) })
      ∧ (∀ j ∈ (c4db.invitations.map (fun i =>
            if i.id == 1 then { i with status := InvitationStatus.EXPIRED } else i)),
          j.id = 1 → j.status = InvitationStatus.EXPIRED)
      ∧ (∀ (u2 : User) (response2 : GroupInvitationUpdate) (now2 : Int),
          respond_to_invitation 1 response2 u2 now2
            ({ c4db with invitations := c4db.invitations.map (fun i =>
                if i.id == 1 then { i with status := InvitationStatus.EXPIRED } else i) }) =
          (.error ⟨404, "Invitation not found or already responded"⟩,
           { c4db with invitations := c4db.invitations.map (fun i =>
               if i.id == 1 then { i with status := InvitationStatus.EXPIRED } else i) }))) :=
  ⟨by decide, by decide,
   c4_respond_expired_marks_expired 1 ⟨InvitationStatus.ACCEPTED, none⟩ bob 20 10 c4db
     ⟨1, 1, some 2, some "bob@x.com", 1, GroupRole.MEMBER,
      InvitationStatus.PENDING, none, none, some 10, none⟩
     (by decide) (by decide) (by decide)⟩

/-- Claim C5: `create_group` fails with the 400 name conflict iff an
*active* group with exactly that name already exists for that owner
(inactive, soft-deleted groups with the same name do not block), and on
success it creates — in the same transaction — the group plus exactly one
`GroupMember` of the new group, with role OWNER, `is_active = true`, and
`user_id` equal to the group's `owner_id`.  The hypothesis is the
foreign-key invariant that every member row references an existing group. -/
theorem c5_create_group_conflict_and_owner_bootstrap (group_data : GroupCreate)
    (owner : User) (now : Int) (db : DB)
    (hfk : ∀ m ∈ db.members, ∃ g ∈ db.groups, m.group_id = g.id) :
    ((∃ g ∈ db.groups, g.owner_id = owner.id ∧ g.name = group_data.name ∧
        g.is_active = true) →
      create_group group_data owner now db =
        (.error ⟨400, "A group with this name already exists"⟩, db))
    ∧ ((¬ ∃ g ∈ db.groups, g.owner_id = owner.id ∧ g.name = group_data.name ∧
        g.is_active = true) →
      ∃ g m, create_group group_data owner now db =
          (.ok g, { db with groups := db.groups ++ [g], members := db.members ++ [m] })
        ∧ g.name = group_data.name ∧ g.description = group_data.description
        ∧ g.owner_id = owner.id ∧ g.is_active = true
        ∧ m.group_id = g.id ∧ m.user_id = owner.id ∧ m.role = GroupRole.OWNER
        ∧ m.is_active = true
        ∧ (db.members ++ [m]).filter (fun mm => mm.group_id == g.id) = [m]) := by
  constructor
  · rintro ⟨g, hg, h1, h2, h3⟩
    unfold create_group
    cases hfind : db.groups.find? (fun g =>
        g.owner_id == owner.id && g.name == group_data.name && g.is_active) with
    | some gx => rfl
    | none =>
      exfalso
      have := List.find?_eq_none.mp hfind g hg
      simp [h1, h2, h3] at this
  · intro hno
    unfold create_group
    cases hfind : db.groups.find? (fun g =>
        g.owner_id == owner.id && g.name == group_data.name && g.is_active) with
    | some gx =>
      exfalso
      have hmm := List.mem_of_find?_eq_some hfind
      have hp := List.find?_some hfind
      simp only [Bool.and_eq_true, beq_iff_eq] at hp
      exact hno ⟨gx, hmm, hp.1.1, hp.1.2, hp.2⟩
    | none =>
      refine ⟨_, _, rfl, rfl, rfl, rfl, rfl, rfl, rfl, rfl, rfl, ?_⟩
      rw [List.filter_append]
      have h1 : db.members.filter (fun mm => mm.group_id == freshGroupId db) = [] := by
        rw [List.filter_eq_nil_iff]
        intro mm hmm2
        rcases hfk mm hmm2 with ⟨g', hg', hgid⟩
        have hlt := mem_lt_freshId (List.mem_map_of_mem Group.id hg')
        simp only [beq_eq_false_iff_ne, ne_eq, beq_iff_eq]
        rw [hgid]
        exact Nat.ne_of_lt hlt
      rw [h1]
      simp

/-- Witness for `c5_create_group_conflict_and_owner_bootstrap`: alice
creates "Ops" in `c5wdb`, where the only same-named group is inactive. -/
theorem c5_create_group_conflict_and_owner_bootstrap_witness :
    (∀ m ∈ c5wdb.members, ∃ g ∈ c5wdb.groups, m.group_id = g.id)
    ∧ (((∃ g ∈ c5wdb.groups, g.owner_id = alice.id ∧ g.name = "Ops" ∧
          g.is_active = true) →
        create_group ⟨"Ops", none⟩ alice 0 c5wdb =
          (.error ⟨400, "A group with this name already exists"⟩, c5wdb))
      ∧ ((¬ ∃ g ∈ c5wdb.groups, g.owner_id = alice.id ∧ g.name = "Ops" ∧
          g.is_active = true) →
        ∃ g m, create_group ⟨"Ops", none⟩ alice 0 c5wdb =
            (.ok g, { c5wdb with groups := c5wdb.groups ++ [g],
                                 members := c5wdb.members ++ [m] })
          ∧ g.name = "Ops" ∧ g.description = none
          ∧ g.owner_id = alice.id ∧ g.is_active = true
          ∧ m.group_id = g.id ∧ m.user_id = alice.id ∧ m.role = GroupRole.OWNER
          ∧ m.is_active = true
          ∧ (c5wdb.members ++ [m]).filter (fun mm => mm.group_id == g.id) = [m])) :=
  ⟨by decide,
   c5_create_group_conflict_and_owner_bootstrap ⟨"Ops", none⟩ alice 0 c5wdb (by decide)⟩

/-- Claim C6: an invitation in a terminal status (ACCEPTED, DECLINED or
EXPIRED) is never changed again: `respond_to_invitation` on it fails with
the 404 NotFound (the lookup is PENDING-only) and returns the state
untouched, and every other operation of the subsystem leaves existing
invitation rows exactly as they are (`invite_user` only appends new rows). -/
theorem c6_terminal_invitation_immutable (db : DB) (inv : GroupInvitation)
    (response : GroupInvitationUpdate) (user : User) (now : Int)
    (hids : (db.invitations.map GroupInvitation.id).Nodup)
    (hmem : inv ∈ db.invitations)
    (hterm : inv.status ≠ InvitationStatus.PENDING) :
    respond_to_invitation inv.id response user now db =
      (.error ⟨404, "Invitation not found or already responded"⟩, db)
    ∧ (∀ gd o t, ((create_group gd o t db).2).invitations = db.invitations)
    ∧ (∀ gid mid ru u t,
        ((update_member_role gid mid ru u t db).2).invitations = db.invitations)
    ∧ (∀ gid mid u t, ((remove_member gid mid u t db).2).invitations = db.invitations)
    ∧ (∀ idata i t tok,
        (((invite_user idata i t tok db).2).invitations).take db.invitations.length
          = db.invitations) := by
  refine ⟨?_, ?_, ?_, ?_, ?_⟩
  · have hnone : findPendingInvitation inv.id user db = none := by
      unfold findPendingInvitation
      rw [List.find?_eq_none]
      intro x hx
      by_cases hxid : x.id = inv.id
      · have hxeq : x = inv := List.inj_on_of_nodup_map hids hx hmem hxid
        subst hxeq
        simp [beq_iff_eq, hterm]
      · simp [hxid]
    unfold respond_to_invitation
    rw [hnone]
  · intro gd o t
    unfold create_group
    split
    · rfl
    · rfl
  · intro gid mid ru u t
    unfold update_member_role
    split
    · rfl
    · split
      · rfl
      · split
        · rfl
        · split
          · rfl
          · split
            · rfl
            · rfl
  · intro gid mid u t
    unfold remove_member
    split
    · rfl
    · split
      · rfl
      · split
        · rfl
        · split
          · rfl
          · rfl
  · intro idata i t tok
    unfold invite_user
    repeat' first
      | split
      | (dsimp only)
    all_goals first
      | exact List.take_length db.invitations
      | exact List.take_left db.invitations _

/-- Witness for `c6_terminal_invitation_immutable`: the DECLINED invitation
of `c6db` answered again by bob. -/
theorem c6_terminal_invitation_immutable_witness :
    (c6db.invitations.map GroupInvitation.id).Nodup
    ∧ (⟨1, 1, some 2, some "bob@x.com", 1, GroupRole.MEMBER,
        InvitationStatus.DECLINED, none, none, some 604800, some 3⟩ : GroupInvitation)
        ∈ c6db.invitations
    ∧ InvitationStatus.DECLINED ≠ InvitationStatus.PENDING
    ∧ (respond_to_invitation 1 ⟨InvitationStatus.ACCEPTED, none⟩ bob 5 c6db =
        (.error ⟨404, "Invitation not found or already responded"⟩, c6db)
      ∧ (∀ gd o t, ((create_group gd o t c6db).2).invitations = c6db.invitations)
      ∧ (∀ gid mid ru u t,
          ((update_member_role gid mid ru u t c6db).2).invitations = c6db.invitations)
      ∧ (∀ gid mid u t,
          ((remove_member gid mid u t c6db).2).invitations = c6db.invitations)
      ∧ (∀ idata i t tok,
          (((invite_user idata i t tok c6db).2).invitations).take c6db.invitations.length
            = c6db.invitations)) :=
  ⟨by decide, by decide, by decide,
   c6_terminal_invitation_immutable c6db
     ⟨1, 1, some 2, some "bob@x.com", 1, GroupRole.MEMBER,
      InvitationStatus.DECLINED, none, none, some 604800, some 3⟩
     ⟨InvitationStatus.ACCEPTED, none⟩ bob 5 (by decide) (by decide) (by decide)⟩

/-- Claim C7: an `update_member_role` call requesting role ADMIN or OWNER,
made by an actor whose active membership role is not OWNER, fails with an
HTTP 403 error and leaves the state (in particular the target membership)
unchanged — even when the target already holds the requested role.  The
`groupUserUnique` hypothesis is the table's declared `_group_user_uc`
constraint (it rules out the actor's own row carrying a different role than
the actor's active membership). -/
theorem c7_only_owner_grants_admin_or_owner (group_id member_id : Nat)
    (role_update : GroupMemberUpdate) (user : User) (now : Int) (db : DB)
    (um mem : GroupMember) (r : GroupRole)
    (huc : groupUserUnique db.members)
    (hum : getUserGroupMembership user.id group_id db = some um)
    (humr : um.role ≠ GroupRole.OWNER)
    (hmem : db.members.find? (fun m => m.id == member_id && m.group_id == group_id)
              = some mem)
    (hr : role_update.role = some r)
    (hra : r = GroupRole.ADMIN ∨ r = GroupRole.OWNER) :
    (update_member_role group_id member_id role_update user now db).2 = db
    ∧ ∃ d, (update_member_role group_id member_id role_update user now db).1 =
        .error ⟨403, d⟩ := by
  have hum' := hum
  unfold getUserGroupMembership at hum'
  have humIn := List.mem_of_find?_eq_some hum'
  have hump := List.find?_some hum'
  simp only [Bool.and_eq_true, beq_iff_eq] at hump
  have hmemIn := List.mem_of_find?_eq_some hmem
  have hmemp := List.find?_some hmem
  simp only [Bool.and_eq_true, beq_iff_eq] at hmemp
  cases hrole : um.role with
  | OWNER => exact absurd hrole humr
  | MEMBER =>
    refine ⟨?_, ⟨"Insufficient permissions to update member", ?_⟩⟩ <;>
      simp [update_member_role, hum, hrole]
  | ADMIN =>
    rcases hra with rfl | rfl <;>
    · by_cases hmu : mem.user_id = user.id
      · have hmeq : mem = um :=
          huc mem hmemIn um humIn (hmemp.2.trans hump.1.2.symm)
            (hmu.trans hump.1.1.symm)
        have hmr : mem.role = GroupRole.ADMIN := by rw [hmeq, hrole]
        refine ⟨?_, ⟨"Only owners can promote members to admin or owner", ?_⟩⟩ <;>
          simp [update_member_role, hum, hrole, hmem, hmr, hmu, hr]
      · refine ⟨?_, ⟨"Only owners can promote members to admin or owner", ?_⟩⟩ <;>
          simp [update_member_role, hum, hrole, hmem, hmu, hr]

/-- Witness for `c7_only_owner_grants_admin_or_owner`: in `c7db`, bob (an
ADMIN) tries to promote carol (a MEMBER) to OWNER. -/
theorem c7_only_owner_grants_admin_or_owner_witness :
    groupUserUnique c7db.members
    ∧ getUserGroupMembership 2 1 c7db = some ⟨2, 1, 2, GroupRole.ADMIN, true, 0⟩
    ∧ GroupRole.ADMIN ≠ GroupRole.OWNER
    ∧ c7db.members.find? (fun m => m.id == 3 && m.group_id == 1)
        = some ⟨3, 1, 3, GroupRole.MEMBER, true, 0⟩
    ∧ ((update_member_role 1 3 ⟨some GroupRole.OWNER, none⟩ bob 9 c7db).2 = c7db
      ∧ ∃ d, (update_member_role 1 3 ⟨some GroupRole.OWNER, none⟩ bob 9 c7db).1 =
          .error ⟨403, d⟩) :=
  ⟨by decide, by decide, by decide, by decide,
   c7_only_owner_grants_admin_or_owner 1 3 ⟨some GroupRole.OWNER, none⟩ bob 9 c7db
     ⟨2, 1, 2, GroupRole.ADMIN, true, 0⟩ ⟨3, 1, 3, GroupRole.MEMBER, true, 0⟩
     GroupRole.OWNER (by decide) (by decide) (by decide) (by decide) (by decide)
     (Or.inr rfl)⟩

/-- The body of `check_project_access` decides ownership: it returns `true`
exactly when a project with the given id exists and belongs to the user
(ids assumed unique, as they are primary keys). -/
theorem projlist_owner_iff (l : List Project) (pid uid : Nat)
    (h : (l.map Project.id).Nodup) :
    (match l.find? (fun p => p.id == pid) with
     | none => false
     | some project => if project.owner_id != uid then false else true) = true
    ↔ ∃ p ∈ l, p.id = pid ∧ p.owner_id = uid := by
  induction l with
  | nil => simp
  | cons q qs ih =>
    rw [List.map_cons, List.nodup_cons] at h
    by_cases hq : q.id = pid
    · rw [List.find?_cons_of_pos _ (by simp [hq])]
      constructor
      · intro hh
        refine ⟨q, List.mem_cons_self q qs, hq, ?_⟩
        by_cases ho : q.owner_id = uid
        · exact ho
        · simp [ho] at hh
      · rintro ⟨p, hp, hpid, hpo⟩
        rcases List.mem_cons.mp hp with rfl | htl
        · simp [hpo]
        · exfalso
          apply h.1
          rw [hq, ← hpid]
          exact List.mem_map_of_mem Project.id htl
    · rw [List.find?_cons_of_neg _ (by simp [hq])]
      rw [ih h.2]
      constructor
      · rintro ⟨p, hp, hrest⟩
        exact ⟨p, List.mem_cons_of_mem q hp, hrest⟩
      · rintro ⟨p, hp, hpid, hpo⟩
        rcases List.mem_cons.mp hp with rfl | htl
        · exact absurd hpid hq
        · exact ⟨p, htl, hpid, hpo⟩

/-- The body of `check_incident_access` decides ownership of the incident's
containing project. -/
theorem inclist_owner_iff (li : List Incident) (lp : List Project) (iid uid : Nat)
    (hi : (li.map Incident.id).Nodup) (hp : (lp.map Project.id).Nodup) :
    (match li.find? (fun i => i.id == iid) with
     | none => false
     | some incident =>
       match lp.find? (fun p => p.id == incident.project_id) with
       | none => false
       | some project => if project.owner_id != uid then false else true) = true
    ↔ ∃ i ∈ li, i.id = iid ∧ ∃ p ∈ lp, p.id = i.project_id ∧ p.owner_id = uid := by
  induction li with
  | nil => simp
  | cons q qs ih =>
    rw [List.map_cons, List.nodup_cons] at hi
    by_cases hq : q.id = iid
    · rw [List.find?_cons_of_pos _ (by simp [hq])]
      rw [projlist_owner_iff lp q.project_id uid hp]
      constructor
      · intro hpe
        exact ⟨q, List.mem_cons_self q qs, hq, hpe⟩
      · rintro ⟨i, hi2, hiid, hpe⟩
        rcases List.mem_cons.mp hi2 with rfl | htl
        · exact hpe
        · exfalso
          apply hi.1
          rw [hq, ← hiid]
          exact List.mem_map_of_mem Incident.id htl
    · rw [List.find?_cons_of_neg _ (by simp [hq])]
      rw [ih hi.2]
      constructor
      · rintro ⟨i, hi2, hrest⟩
        exact ⟨i, List.mem_cons_of_mem q hi2, hrest⟩
      · rintro ⟨i, hi2, hiid, hrest⟩
        rcases List.mem_cons.mp hi2 with rfl | htl
        · exact absurd hiid hq
        · exact ⟨i, htl, hiid, hrest⟩

/-- Claim C8: `check_project_access` returns true iff the project exists and
its `owner_id` equals the user; `check_incident_access` returns true iff the
incident exists, its containing project exists, and that project's
`owner_id` equals the user; both are independent of the `action` argument
(and, being pure functions of the state, mutate nothing). -/
theorem c8_access_is_ownership (user_id project_id incident_id : Nat)
    (a b : String) (db : DB)
    (hp : (db.projects.map Project.id).Nodup)
    (hi : (db.incidents.map Incident.id).Nodup) :
    (check_project_access user_id project_id a db = true ↔
      ∃ p ∈ db.projects, p.id = project_id ∧ p.owner_id = user_id)
    ∧ (check_incident_access user_id incident_id a db = true ↔
      ∃ i ∈ db.incidents, i.id = incident_id ∧
        ∃ p ∈ db.projects, p.id = i.project_id ∧ p.owner_id = user_id)
    ∧ check_project_access user_id project_id a db =
        check_project_access user_id project_id b db
    ∧ check_incident_access user_id incident_id a db =
        check_incident_access user_id incident_id b db := by
  refine ⟨?_, ?_, rfl, rfl⟩
  · exact projlist_owner_iff db.projects project_id user_id hp
  · exact inclist_owner_iff db.incidents db.projects incident_id user_id hi hp

/-- Witness for `c8_access_is_ownership` on `c8db` (projects 1 and 2 owned
by users 1 and 2, one incident in each). -/
theorem c8_access_is_ownership_witness :
    (c8db.projects.map Project.id).Nodup
    ∧ (c8db.incidents.map Incident.id).Nodup
    ∧ ((check_project_access 1 1 "read" c8db = true ↔
        ∃ p ∈ c8db.projects, p.id = 1 ∧ p.owner_id = 1)
      ∧ (check_incident_access 1 2 "read" c8db = true ↔
        ∃ i ∈ c8db.incidents, i.id = 2 ∧
          ∃ p ∈ c8db.projects, p.id = i.project_id ∧ p.owner_id = 1)
      ∧ check_project_access 1 1 "read" c8db = check_project_access 1 1 "write" c8db
      ∧ check_incident_access 1 2 "read" c8db =
          check_incident_access 1 2 "write" c8db) :=
  ⟨by decide, by decide,
   c8_access_is_ownership 1 1 2 "read" "write" c8db (by decide) (by decide)⟩

/-- Claim C9: the self-demotion guard of `update_member_role` runs only when
a role change is requested, so a group owner *can* deactivate their own
membership with a patch `{is_active := false}` carrying no role — even
though `remove_member` rejects the equivalent owner self-removal. -/
theorem c9_owner_can_deactivate_self (group_id member_id : Nat) (user : User)
    (now : Int) (db : DB) (um mem : GroupMember)
    (hum : getUserGroupMembership user.id group_id db = some um)
    (humr : um.role = GroupRole.OWNER)
    (hmem : db.members.find? (fun m => m.id == member_id && m.group_id == group_id)
              = some mem)
    (hmu : mem.user_id = user.id) (hmr : mem.role = GroupRole.OWNER) :
    update_member_role group_id member_id ⟨none, some false⟩ user now db =
      (.ok { mem with is_active := false, updated_at := now },
       { db with members := db.members.map (fun m =>
           if m.id == mem.id then { mem with is_active := false, updated_at := now }
           else m) })
    ∧ remove_member group_id member_id user now db =
      (.error ⟨400, "Owner cannot remove themselves. Transfer ownership first."⟩, db) := by
  constructor
  · simp [update_member_role, hum, humr, hmem]
  · simp [remove_member, hum, humr, hmem, hmu, hmr]

/-- Witness for `c9_owner_can_deactivate_self`: alice, sole OWNER of group 1
in `c2db`, deactivates her own membership. -/
theorem c9_owner_can_deactivate_self_witness :
    getUserGroupMembership 1 1 c2db = some ⟨1, 1, 1, GroupRole.OWNER, true, 0⟩
    ∧ c2db.members.find? (fun m => m.id == 1 && m.group_id == 1)
        = some ⟨1, 1, 1, GroupRole.OWNER, true, 0⟩
    ∧ (update_member_role 1 1 ⟨none, some false⟩ alice 7 c2db =
        (.ok { id := 1, group_id := 1, user_id := 1, role := GroupRole.OWNER
               is_active := false, updated_at := 7 },
         { c2db with members := c2db.members.map (fun m =>
             if m.id == 1
             then { id := 1, group_id := 1, user_id := 1, role := GroupRole.OWNER
                    is_active := false, updated_at := 7 }
             else m) })
      ∧ remove_member 1 1 alice 7 c2db =
        (.error ⟨400, "Owner cannot remove themselves. Transfer ownership first."⟩, c2db)) :=
  ⟨by decide, by decide,
   c9_owner_can_deactivate_self 1 1 alice 7 c2db
     ⟨1, 1, 1, GroupRole.OWNER, true, 0⟩ ⟨1, 1, 1, GroupRole.OWNER, true, 0⟩
     (by decide) (by decide) (by decide) (by decide) (by decide)⟩

/-- Replacing (by id) the row that `find?` returns, with a replacement that
still satisfies the predicate, makes `find?` return the replacement
(ids assumed unique). -/
theorem find?_map_update_of_nodup (l : List GroupInvitation)
    (p : GroupInvitation → Bool) (inv inv' : GroupInvitation)
    (hn : (l.map GroupInvitation.id).Nodup)
    (hf : l.find? p = some inv)
    (hp' : p inv' = true) :
    (l.map (fun i => if i.id == inv.id then inv' else i)).find? p = some inv' := by
  induction l with
  | nil => cases hf
  | cons x xs ih =>
    rw [List.map_cons, List.nodup_cons] at hn
    by_cases hx : p x = true
    · rw [List.find?_cons_of_pos _ hx] at hf
      injection hf with hf2
      subst hf2
      rw [List.map_cons]
      simp only [beq_self_eq_true, if_true]
      exact List.find?_cons_of_pos _ hp'
    · rw [List.find?_cons_of_neg _ hx] at hf
      have hmemi : inv ∈ xs := List.mem_of_find?_eq_some hf
      have hxid : (x.id == inv.id) = false := by
        rw [beq_eq_false_iff_ne]
        intro he
        exact hn.1 (he ▸ List.mem_map_of_mem GroupInvitation.id hmemi)
      rw [List.map_cons]
      simp only [hxid, Bool.false_eq_true, if_false]
      rw [List.find?_cons_of_neg _ hx]
      exact ih hn.2 hf

/-- Claim C10: `Respond` accepts PENDING as the requested status: on a
valid, unexpired PENDING invitation it succeeds, stamps `responded_at`,
leaves the status PENDING — so the same invitation is still found by the
PENDING-only lookup afterwards and can be responded to again — and creates
no membership (the member list is untouched). -/
theorem c10_respond_pending_status_allowed (invitation_id : Nat) (user : User)
    (now : Int) (msg : Option String) (db : DB) (inv : GroupInvitation)
    (hids : (db.invitations.map GroupInvitation.id).Nodup)
    (hfind : findPendingInvitation invitation_id user db = some inv)
    (hnexp : invitationExpired inv now = false) :
    respond_to_invitation invitation_id ⟨InvitationStatus.PENDING, msg⟩ user now db =
      (.ok ({ inv with
                status := InvitationStatus.PENDING
                responded_at := some now
                message := match msg with
                           | some m => if m != "" then some m else inv.message
                           | none => inv.message }),
       { db with invitations := db.invitations.map (fun i =>
           if i.id == inv.id
           then { inv with
                    status := InvitationStatus.PENDING
                    responded_at := some now
                    message := match msg with
                               | some m => if m != "" then some m else inv.message
                               | none => inv.message }
           else i) })
    ∧ ((respond_to_invitation invitation_id ⟨InvitationStatus.PENDING, msg⟩
          user now db).2).members = db.members
    ∧ findPendingInvitation invitation_id user
        ((respond_to_invitation invitation_id ⟨InvitationStatus.PENDING, msg⟩
            user now db).2)
      = some ({ inv with
                  status := InvitationStatus.PENDING
                  responded_at := some now
                  message := match msg with
                             | some m => if m != "" then some m else inv.message
                             | none => inv.message }) := by
  have hfind' := hfind
  unfold findPendingInvitation at hfind'
  have hpred := List.find?_some hfind'
  simp only [Bool.and_eq_true] at hpred
  have hid := hpred.1.1
  have hresp := hpred.1.2
  have heq : respond_to_invitation invitation_id ⟨InvitationStatus.PENDING, msg⟩
      user now db =
      (.ok ({ inv with
                status := InvitationStatus.PENDING
                responded_at := some now
                message := match msg with
                           | some m => if m != "" then some m else inv.message
                           | none => inv.message }),
       { db with invitations := db.invitations.map (fun i =>
           if i.id == inv.id
           then { inv with
                    status := InvitationStatus.PENDING
                    responded_at := some now
                    message := match msg with
                               | some m => if m != "" then some m else inv.message
                               | none => inv.message }
           else i) }) := by
    unfold respond_to_invitation
    rw [hfind]
    simp [hnexp]
  refine ⟨heq, by rw [heq], ?_⟩
  rw [heq]
  unfold findPendingInvitation
  exact find?_map_update_of_nodup db.invitations _ inv _ hids hfind'
    (by simp [hid, hresp])

/-- Witness for `c10_respond_pending_status_allowed`: bob answers the
unexpired invitation of `c10db` with requested status PENDING at instant 5. -/
theorem c10_respond_pending_status_allowed_witness :
    (c10db.invitations.map GroupInvitation.id).Nodup
    ∧ findPendingInvitation 1 bob c10db =
        some ⟨1, 1, some 2, some "bob@x.com", 1, GroupRole.MEMBER,
              InvitationStatus.PENDING, none, none, some 1000, none⟩
    ∧ invitationExpired
        ⟨1, 1, some 2, some "bob@x.com", 1, GroupRole.MEMBER,
         InvitationStatus.PENDING, none, none, some 1000, none⟩ 5 = false
    ∧ (respond_to_invitation 1 ⟨InvitationStatus.PENDING, none⟩ bob 5 c10db =
        (.ok ⟨1, 1, some 2, some "bob@x.com", 1, GroupRole.MEMBER,
              InvitationStatus.PENDING, none, none, some 1000, some 5⟩,
         { c10db with invitations := c10db.invitations.map (fun i =>
             if i.id == 1
             then ⟨1, 1, some 2, some "bob@x.com", 1, GroupRole.MEMBER,
                   InvitationStatus.PENDING, none, none, some 1000, some 5⟩
             else i) })
      ∧ ((respond_to_invitation 1 ⟨InvitationStatus.PENDING, none⟩ bob 5 c10db).2).members
          = c10db.members
      ∧ findPendingInvitation 1 bob
          ((respond_to_invitation 1 ⟨InvitationStatus.PENDING, none⟩ bob 5 c10db).2)
        = some ⟨1, 1, some 2, some "bob@x.com", 1, GroupRole.MEMBER,
                InvitationStatus.PENDING, none, none, some 1000, some 5⟩) :=
  ⟨by decide, by decide, by decide,
   c10_respond_pending_status_allowed 1 bob 5 none c10db
     ⟨1, 1, some 2, some "bob@x.com", 1, GroupRole.MEMBER,
      InvitationStatus.PENDING, none, none, some 1000, none⟩
     (by decide) (by decide) (by decide)⟩

end StatusWise
